import Mathlib

/-!
Verification of the submission intake and triage API
(`src/routes/submissions.js` and the canonical Submission schema of
`src/models/Submission.js`, the fully-featured second definition that the
design notes adopt as the superset shape).

The JavaScript code is shallowly embedded: request bodies become option-valued
structures (a `none` field is an absent JSON key), the Mongo document store
becomes a list of records, timestamps become natural numbers supplied as a
`now` argument, and every route handler becomes a pure function returning an
HTTP status code together with the new store contents.
-/

/-! ## String utilities

JavaScript `String.prototype.includes` is literal, case-sensitive substring
containment; we implement it on character lists.  `toLowerCase` is modelled by
`String.toLower` (character-wise ASCII lowering).
-/

/-- `isPrefixL n h` holds when the character list `n` is a prefix of `h`
(case-sensitive). -/
def isPrefixL : List Char → List Char → Bool
  | [], _ => true
  | _ :: _, [] => false
  | c :: cs, d :: ds => c == d && isPrefixL cs ds

/-- `containsL n h` holds when `n` occurs as a contiguous sublist of `h`;
this models JavaScript `h.includes(n)`. -/
def containsL : List Char → List Char → Bool
  | n, [] => isPrefixL n []
  | n, c :: cs => isPrefixL n (c :: cs) || containsL n cs

/-- JavaScript `toLowerCase`, character-wise ASCII lowering, implemented so
that it evaluates by kernel reduction. -/
def strLower (s : String) : String := ⟨s.data.map Char.toLower⟩

/-- Strip whitespace from both ends of a character list. -/
def trimL (l : List Char) : List Char :=
  ((l.dropWhile Char.isWhitespace).reverse.dropWhile Char.isWhitespace).reverse

/-- JavaScript `trim` (also the schema `trim: true` setter). -/
def strTrim (s : String) : String := ⟨trimL s.data⟩

/-- Case-insensitive character comparison, as used by the `i` option of the
storage engine regex matching. -/
def charCI (c d : Char) : Bool := c.toLower == d.toLower

/-- Case-insensitive prefix test. -/
def isPrefixCI : List Char → List Char → Bool
  | [], _ => true
  | _ :: _, [] => false
  | c :: cs, d :: ds => charCI c d && isPrefixCI cs ds

/-- Case-insensitive contiguous-sublist (substring) test: `containsCI n h`
holds when `n` occurs in `h` up to ASCII case. -/
def containsCI : List Char → List Char → Bool
  | n, [] => isPrefixCI n []
  | n, c :: cs => isPrefixCI n (c :: cs) || containsCI n cs

/-! ## A fragment of the storage engine regex matcher

The list route passes the raw `search` string to the document store as
`{ $regex: search, $options: 'i' }`.  The store interprets it as a regular
expression, matched unanchored and case-insensitively.  We give the exact
semantics of the fragment in which every pattern character is either the
wildcard `.` or an ordinary (non-metacharacter) literal; theorems that rely on
this matcher carry the hypothesis that the pattern stays inside the fragment.
-/

/-- One token of a pattern in the regex fragment: a wildcard or a literal. -/
inductive RTok where
  | dot : RTok
  | lit : Char → RTok
deriving DecidableEq, Repr

/-- Tokenize a pattern string of the fragment: `.` becomes the wildcard,
every other character a literal. -/
def toksOf (p : List Char) : List RTok :=
  p.map fun c => if c == '.' then RTok.dot else RTok.lit c

/-- Case-insensitive match of one token against one character. -/
def tokMatchCI : RTok → Char → Bool
  | RTok.dot, _ => true
  | RTok.lit c, d => charCI c d

/-- Anchored match: the token list matches a prefix of the character list. -/
def matchesAt : List RTok → List Char → Bool
  | [], _ => true
  | _ :: _, [] => false
  | t :: ts, c :: cs => tokMatchCI t c && matchesAt ts cs

/-- Unanchored regex search, as the storage engine performs for a filter
condition `{ field: { $regex: p, $options: 'i' } }`: the pattern may match
starting at any position. -/
def regexSearch (toks : List RTok) : List Char → Bool
  | [] => matchesAt toks []
  | c :: cs => matchesAt toks (c :: cs) || regexSearch toks cs

/-- Characters that carry special meaning in the storage engine regex
dialect; a search string avoiding all of them is matched like a literal. -/
def regexMetaChars : List Char :=
  ['\\', '^', '$', '.', '|', '?', '*', '+', '(', ')', '[', ']',
   Char.ofNat 123, Char.ofNat 125]

/-- `isMetaChar c` holds when `c` is a regex metacharacter. -/
def isMetaChar (c : Char) : Bool := regexMetaChars.contains c

/-! ## Data model

`Submission` embeds the canonical schema: free-text fields are trimmed,
`email` additionally lowercased, categorization fields carry the schema
defaults, and `metadata` keeps the two lists the routes inspect
(`processingErrors` and `tags`).  Timestamps are naturals.
-/

/-- The slice of the `metadata` envelope used by the routes: the processing
error list and the tag list (both default to empty on save). -/
structure Metadata where
  processingErrors : List String := []
  tags : List String := []
deriving DecidableEq, Repr

/-- A stored submission record (canonical schema fields used by the routes;
schema defaults appear as field defaults). -/
structure Submission where
  name : String
  email : String
  phone : Option String := none
  message : Option String := none
  submissionType : String := "other"
  stage : String := "Initial Demand"
  source : String := "Unknown"
  status : String := "new"
  priority : String := "medium"
  assignedTo : Option String := none
  metadata : Metadata := {}
  createdAt : Nat := 0
  updatedAt : Nat := 0
deriving DecidableEq, Repr

/-- The `priority` enum of the canonical schema. -/
def priorityEnum : List String := ["low", "medium", "high", "urgent"]

/-! ## Create request body and the POST / handler -/

/-- The `metadata` object of a request body; absent keys are `none`. -/
structure MetaBody where
  processingErrors : Option (List String) := none
  tags : Option (List String) := none
deriving DecidableEq, Repr

/-- A JSON request body for create (and full update): every key optional,
`none` meaning the key is absent.  `updatedAt` models a client-supplied
timestamp, which the code must ignore. -/
structure CreateBody where
  name : Option String := none
  email : Option String := none
  phone : Option String := none
  message : Option String := none
  priority : Option String := none
  metadata : Option MetaBody := none
  updatedAt : Option Nat := none
deriving DecidableEq, Repr

/-- JavaScript truthiness of an optional string field: absent and the empty
string are falsy. -/
def truthyStr : Option String → Bool
  | none => false
  | some s => !(s == "")

/-- Route-level required-field check (`!x || x.trim() === ''` negated):
present and not whitespace-only. -/
def validStr : Option String → Bool
  | none => false
  | some s => !(strTrim s == "")

/-- The urgent keyword list of the auto-prioritization rule. -/
def urgentKeywords : List String := ["urgent", "asap", "emergency", "immediately", "rush"]

/-- `messageIsUrgent m` mirrors
`urgentKeywords.some(k => m.toLowerCase().includes(k))`. -/
def messageIsUrgent (m : String) : Bool :=
  urgentKeywords.any fun k => containsL k.data (strLower m).data

/-- The classifier guard of the POST route: the `message` field is truthy and
contains an urgent keyword after lowercasing. -/
def classifierFires (body : CreateBody) : Bool :=
  truthyStr body.message && messageIsUrgent (body.message.getD "")

/-- `autoPriority` as computed by the POST route before the save. -/
def autoPriority (body : CreateBody) : String :=
  if classifierFires body then "urgent" else "medium"

/-- The tag list of the request body (`req.body.metadata.tags`), empty when
`metadata` or `tags` is absent. -/
def requestTags (body : CreateBody) : List String :=
  (body.metadata.bind MetaBody.tags).getD []

/-- The processing-error list of the request body. -/
def requestErrors (body : CreateBody) : List String :=
  (body.metadata.bind MetaBody.processingErrors).getD []

/-- Tags after the POST route ran: the route pushes `"auto-urgent"` (creating
`metadata` and `metadata.tags` when absent) whenever the classifier guard
fires — regardless of a caller-supplied `priority`. -/
def tagsAfterClassifier (body : CreateBody) : List String :=
  if classifierFires body then requestTags body ++ ["auto-urgent"] else requestTags body

/-- The priority the POST route stores: the body value if truthy, else the
auto-classified one (`if (!req.body.priority) req.body.priority = autoPriority`). -/
def storedPriority (body : CreateBody) : String :=
  if truthyStr body.priority then body.priority.getD "" else autoPriority body

/-- The record produced by a successful create at time `now`: schema setters
trim free-text fields and lowercase `email`, the pre-save hook stamps
`updatedAt`, and `createdAt` defaults to the current time. -/
def createdRecord (body : CreateBody) (now : Nat) : Submission :=
  { name := strTrim (body.name.getD "")
    email := strLower (strTrim (body.email.getD ""))
    phone := body.phone.map strTrim
    message := body.message.map strTrim
    priority := storedPriority body
    metadata := { processingErrors := requestErrors body
                  tags := tagsAfterClassifier body }
    createdAt := now
    updatedAt := now }

/-- The POST / handler over a store `st`: required-field checks return 400
without persisting; a schema enum violation is a `ValidationError`, also 400;
any other failure of the save (storage unavailable) falls to the catch-all of
the route, which responds 400 as well; on success the record is appended and
201 returned. -/
def postHandler (body : CreateBody) (now : Nat) (storageUp : Bool)
    (st : List Submission) : Nat × List Submission :=
  if !validStr body.name then (400, st)
  else if !validStr body.email then (400, st)
  else if !(priorityEnum.contains (storedPriority body)) then (400, st)
  else if !storageUp then (400, st)
  else (201, st ++ [createdRecord body now])

/-! ## Full update (PUT /:id), status patch (PATCH /:id/status), bulk update -/

/-- The record after a successful full update
`findByIdAndUpdate(id, { ...req.body, updatedAt: now })`: every supplied body
field is set (through the schema setters), absent fields keep their stored
value, and `updatedAt` is stamped with the current time, overriding any
client-supplied value (both by the route spread and by the pre-update hook). -/
def putApplied (old : Submission) (b : CreateBody) (now : Nat) : Submission :=
  { old with
    name := match b.name with | some s => strTrim s | none => old.name
    email := match b.email with | some s => strLower (strTrim s) | none => old.email
    phone := match b.phone with | some s => some (strTrim s) | none => old.phone
    message := match b.message with | some s => some (strTrim s) | none => old.message
    priority := match b.priority with | some s => s | none => old.priority
    updatedAt := now }

/-- The body of PATCH /:id/status: only these four keys are read, all others
are ignored. -/
structure StatusBody where
  stage : Option String := none
  status : Option String := none
  priority : Option String := none
  assignedTo : Option String := none
deriving DecidableEq, Repr

/-- The record after the status patch: each of the four fields is set only
when truthy in the body (`if (stage) updateFields.stage = stage`, etc.), and
`updatedAt` is always stamped with the current time. -/
def statusApplied (old : Submission) (b : StatusBody) (now : Nat) : Submission :=
  { old with
    stage := if truthyStr b.stage then b.stage.getD old.stage else old.stage
    status := if truthyStr b.status then b.status.getD old.status else old.status
    priority := if truthyStr b.priority then b.priority.getD old.priority else old.priority
    assignedTo := if truthyStr b.assignedTo then b.assignedTo else old.assignedTo
    updatedAt := now }

/-- The PATCH /:id/status handler over an id-keyed store: 404 when the id is
absent, otherwise 200 with the matching record rewritten by `statusApplied`.
Note there is no emptiness check on the body: an update object containing only
the stamped `updatedAt` is sent to the store. -/
def patchStatusHandler (id : Nat) (b : StatusBody) (now : Nat)
    (st : List (Nat × Submission)) : Nat × List (Nat × Submission) :=
  if (st.find? fun p => p.1 == id).isSome then
    (200, st.map fun p => if p.1 == id then (p.1, statusApplied p.2 b now) else p)
  else (404, st)

/-- The `updates` mapping of PATCH /bulk/status, restricted to the schema
fields it can address; `updatedAt` models a client-supplied value that the
route overwrites before issuing the `$set`. -/
structure BulkUpdates where
  stage : Option String := none
  status : Option String := none
  priority : Option String := none
  assignedTo : Option String := none
  updatedAt : Option Nat := none
deriving DecidableEq, Repr

/-- The record after the bulk `$set`: every present key is set verbatim (no
truthiness filter here), and `updatedAt` is the current time because the route
assigns `updates.updatedAt = new Date()` over any client value. -/
def bulkApplied (old : Submission) (u : BulkUpdates) (now : Nat) : Submission :=
  { old with
    stage := u.stage.getD old.stage
    status := u.status.getD old.status
    priority := u.priority.getD old.priority
    assignedTo := match u.assignedTo with | some s => some s | none => old.assignedTo
    updatedAt := now }

/-! ## List route: filter construction and pagination -/

/-- Query parameters of GET /: each filter parameter is a string, with the
empty string standing for an absent (hence falsy) parameter, exactly as the
route guards test them. -/
structure ListParams where
  type : String := ""
  stage : String := ""
  source : String := ""
  status : String := ""
  priority : String := ""
  assignedTo : String := ""
  search : String := ""
deriving DecidableEq, Repr

/-- The AND-combined equality filters of the list route: a provided parameter
demands exact equality on its field; an absent one is not added to the
filter. -/
def eqFiltersOk (p : ListParams) (s : Submission) : Bool :=
  (p.type == "" || s.submissionType == p.type) &&
  (p.stage == "" || s.stage == p.stage) &&
  (p.source == "" || s.source == p.source) &&
  (p.status == "" || s.status == p.status) &&
  (p.priority == "" || s.priority == p.priority) &&
  (p.assignedTo == "" || s.assignedTo == some p.assignedTo)

/-- The `$or` search group: the raw search string, interpreted as a regex
pattern with the `i` option, matched against `name`, `email` and `message`
(a record without a `message` field cannot match on that branch). -/
def matchesSearch (search : String) (s : Submission) : Bool :=
  regexSearch (toksOf search.data) s.name.data ||
  regexSearch (toksOf search.data) s.email.data ||
  (match s.message with
   | some m => regexSearch (toksOf search.data) m.data
   | none => false)

/-- The full filter of `Submission.find(filter)`: equality filters AND (when
`search` is truthy) the regex OR-group. -/
def matchesFilter (p : ListParams) (s : Submission) : Bool :=
  eqFiltersOk p s && (p.search == "" || matchesSearch p.search s)

/-- The result set of `Submission.find(filter)` before sorting and
pagination; `countDocuments(filter)` is its length. -/
def findFiltered (p : ListParams) (st : List Submission) : List Submission :=
  st.filter (matchesFilter p)

/-- The pagination block of the list response. -/
structure PaginationInfo where
  currentPage : Int
  totalPages : Int
  totalItems : Int
  itemsPerPage : Int
  hasNextPage : Bool
  hasPrevPage : Bool
deriving DecidableEq, Repr

/-- `Math.ceil(total / limitNumber)` over exact arithmetic. -/
def jsCeilDiv (total limit : Int) : Int := Int.ceil ((total : ℚ) / (limit : ℚ))

/-- The pagination block as the route computes it from the parsed
`pageNumber`, `limitNumber` and the total count. -/
def buildPagination (pageNumber limitNumber total : Int) : PaginationInfo :=
  { currentPage := pageNumber
    totalPages := jsCeilDiv total limitNumber
    totalItems := total
    itemsPerPage := limitNumber
    hasNextPage := decide (pageNumber < jsCeilDiv total limitNumber)
    hasPrevPage := decide (pageNumber > 1) }

/-- `const skip = (pageNumber - 1) * limitNumber` — computed on the raw parsed
integers, with no clamping. -/
def computeSkip (pageNumber limitNumber : Int) : Int := (pageNumber - 1) * limitNumber

/-- The (skip, limit) pair handed to the storage collaborator by
`.limit(limitNumber).skip(skip)`: both taken raw from the parsed parameters. -/
def queryDescriptor (pageNumber limitNumber : Int) : Int × Int :=
  (computeSkip pageNumber limitNumber, limitNumber)

/-! ## Dashboard statistics -/

/-- The error-count aggregation: documents whose
`metadata.processingErrors.0` exists, i.e. whose error list is non-empty. -/
def errorCount (subs : List Submission) : Nat :=
  (subs.filter fun s => !s.metadata.processingErrors.isEmpty).length

/-- Rounding to two decimal places as `Number.prototype.toFixed(2)` performs
on the non-negative rates at hand (nearest, ties away from zero). -/
def round2 (q : ℚ) : ℚ := (Int.floor (q * 100 + 1 / 2) : ℚ) / 100

/-- The dashboard error rate:
`total > 0 ? (errorCount / total * 100).toFixed(2) : 0`, reparsed to a
number. -/
def errorRate (subs : List Submission) : ℚ :=
  if 0 < subs.length then
    round2 ((errorCount subs : ℚ) / (subs.length : ℚ) * 100)
  else 0

/-! ## Helper lemmas -/

/-- The empty message matches no urgent keyword. -/
theorem messageIsUrgent_empty : messageIsUrgent "" = false := by decide

/-- When the four status fields of the body are falsy, the status patch
changes only `updatedAt`. -/
theorem statusApplied_falsy (b : StatusBody)
    (h1 : truthyStr b.stage = false) (h2 : truthyStr b.status = false)
    (h3 : truthyStr b.priority = false) (h4 : truthyStr b.assignedTo = false)
    (x : Submission) (now : Nat) :
    statusApplied x b now = { x with updatedAt := now } := by
  simp [statusApplied, h1, h2, h3, h4]

/-! ## Claims -/

/-- C1: for a create request that omits `priority`, a present message whose
lowercased text contains one of the literal trigger substrings makes the
stored priority `urgent` and puts `"auto-urgent"` into `metadata.tags` (the
tag list being created if absent); a message that is absent or contains no
trigger word leaves the stored priority `medium`. -/
theorem priority_classifier_on_create (body : CreateBody) (now : Nat)
    (hp : body.priority = none) :
    ((∃ m, body.message = some m ∧ messageIsUrgent m = true) →
      (createdRecord body now).priority = "urgent" ∧
      "auto-urgent" ∈ (createdRecord body now).metadata.tags) ∧
    ((∀ m, body.message = some m → messageIsUrgent m = false) →
      (createdRecord body now).priority = "medium") := by
  constructor
  · rintro ⟨m, hm, hurg⟩
    have hm0 : ¬(m = "") := by
      intro h
      rw [h, messageIsUrgent_empty] at hurg
      exact Bool.false_ne_true hurg
    have hfire : classifierFires body = true := by
      simp [classifierFires, truthyStr, hm, hm0, hurg]
    refine ⟨?_, ?_⟩
    · simp [createdRecord, storedPriority, truthyStr, hp, autoPriority, hfire]
    · simp [createdRecord, tagsAfterClassifier, hfire]
  · intro hnone
    have hfire : classifierFires body = false := by
      cases hmsg : body.message with
      | none => simp [classifierFires, truthyStr, hmsg]
      | some m =>
        simp [classifierFires, hmsg]
        intro _
        simpa using hnone m hmsg
    simp [createdRecord, storedPriority, truthyStr, hp, autoPriority, hfire]

/-- Witness for C1 at the scenario input of the specification. -/
theorem priority_classifier_on_create_witness :
    (createdRecord { name := some "Jane Doe", email := some "JANE@X.COM", message := some "please call ASAP" } 5).priority = "urgent" ∧
    "auto-urgent" ∈ (createdRecord { name := some "Jane Doe", email := some "JANE@X.COM", message := some "please call ASAP" } 5).metadata.tags :=
  (priority_classifier_on_create _ 5 rfl).1 ⟨"please call ASAP", rfl, by decide⟩

/-- C2: every successful mutation — create, full replace, partial status
update, bulk status update — stamps `updatedAt` with the current time,
independently of any client-supplied `updatedAt` (the bodies below carry
arbitrary client values, including their own `updatedAt` fields); hence when
the clock has advanced past the previously stored value, `updatedAt` strictly
increases. -/
theorem updatedAt_advances_on_mutations (cb pb : CreateBody) (sb : StatusBody)
    (u : BulkUpdates) (old : Submission) (now : Nat)
    (h : old.updatedAt < now) :
    (createdRecord cb now).updatedAt = now ∧
    ((putApplied old pb now).updatedAt = now ∧
      old.updatedAt < (putApplied old pb now).updatedAt) ∧
    ((statusApplied old sb now).updatedAt = now ∧
      old.updatedAt < (statusApplied old sb now).updatedAt) ∧
    ((bulkApplied old u now).updatedAt = now ∧
      old.updatedAt < (bulkApplied old u now).updatedAt) :=
  ⟨rfl, ⟨rfl, h⟩, ⟨rfl, h⟩, ⟨rfl, h⟩⟩

/-- Witness for C2: a concrete record previously updated at time 3, mutated
at time 7 by bodies that all try to smuggle in `updatedAt := 99`. -/
theorem updatedAt_advances_on_mutations_witness :
    (createdRecord { name := some "A", email := some "a@b.c", updatedAt := some 99 } 7).updatedAt = 7 ∧
    ((putApplied { name := "A", email := "a@b.c", updatedAt := 3 } { updatedAt := some 99 } 7).updatedAt = 7 ∧
      3 < (putApplied { name := "A", email := "a@b.c", updatedAt := 3 } { updatedAt := some 99 } 7).updatedAt) ∧
    ((statusApplied { name := "A", email := "a@b.c", updatedAt := 3 } {} 7).updatedAt = 7 ∧
      3 < (statusApplied { name := "A", email := "a@b.c", updatedAt := 3 } {} 7).updatedAt) ∧
    ((bulkApplied { name := "A", email := "a@b.c", updatedAt := 3 } { updatedAt := some 99 } 7).updatedAt = 7 ∧
      3 < (bulkApplied { name := "A", email := "a@b.c", updatedAt := 3 } { updatedAt := some 99 } 7).updatedAt) :=
  updatedAt_advances_on_mutations
    { name := some "A", email := some "a@b.c", updatedAt := some 99 }
    { updatedAt := some 99 } {} { updatedAt := some 99 }
    { name := "A", email := "a@b.c", updatedAt := 3 } 7 (by decide)

/-- C3 counterexample: a well-formed create attempted while the storage
collaborator is down is answered by the catch-all of the POST route with
status 400, not with a 500-equivalent persistence error as the claim
states. -/
theorem create_error_contract_cex :
    postHandler { name := some "Jane", email := some "j@x.com" } 5 false [] = (400, []) ∧
    (400 : Nat) ≠ 500 := by
  exact ⟨by decide, by decide⟩

/-- C3 amended: missing or whitespace-only `name` or `email` yields a
400-equivalent validation failure with the store unchanged; a storage failure
on an otherwise valid create also yields status 400 (the route catch-all),
again with the store unchanged — never a 500-equivalent. -/
theorem create_error_contract_amended (body : CreateBody) (now : Nat)
    (st : List Submission) :
    ((validStr body.name = false ∨ validStr body.email = false) →
      ∀ up, postHandler body now up st = (400, st)) ∧
    (validStr body.name = true → validStr body.email = true →
      postHandler body now false st = (400, st)) := by
  constructor
  · rintro (h | h) up <;> simp [postHandler, h]
  · intro h1 h2
    simp only [postHandler, h1, h2, Bool.not_true, Bool.false_eq_true, if_false]
    split <;> rfl

/-- Witness for C3 (amended): both branches at concrete inputs — a create
with no name, and a valid create while storage is down. -/
theorem create_error_contract_amended_witness :
    postHandler { email := some "j@x.com" } 5 true [] = (400, []) ∧
    postHandler { name := some "Jane", email := some "j@x.com" } 5 false [] = (400, []) :=
  ⟨(create_error_contract_amended { email := some "j@x.com" } 5 []).1
      (Or.inl (by decide)) true,
   (create_error_contract_amended { name := some "Jane", email := some "j@x.com" } 5 []).2
      (by decide) (by decide)⟩

/-- C6 counterexample: the caller supplies `priority: "low"` together with a
message containing a trigger word; the stored priority is the supplied one,
but the classifier side effect still happens — `"auto-urgent"` is appended to
`metadata.tags`, contradicting the claim that no classifier side effect
occurs. -/
theorem supplied_priority_cex :
    (createdRecord { name := some "Ann", email := some "a@b.c", message := some "urgent move", priority := some "low" } 5).priority = "low" ∧
    "auto-urgent" ∈ (createdRecord { name := some "Ann", email := some "a@b.c", message := some "urgent move", priority := some "low" } 5).metadata.tags := by
  exact ⟨by decide, by decide⟩

/-- C6 amended: a non-empty caller-supplied `priority` is stored exactly and
is never overridden by the classifier; the classifier is nevertheless still
evaluated, so a trigger word in the message appends `"auto-urgent"` to
`metadata.tags`, while a message without trigger words leaves the tags exactly
as supplied. -/
theorem supplied_priority_amended (body : CreateBody) (now : Nat) (p : String)
    (hp : body.priority = some p) (hpt : ¬(p = "")) :
    (createdRecord body now).priority = p ∧
    ((∃ m, body.message = some m ∧ messageIsUrgent m = true) →
      "auto-urgent" ∈ (createdRecord body now).metadata.tags) ∧
    ((∀ m, body.message = some m → messageIsUrgent m = false) →
      (createdRecord body now).metadata.tags = requestTags body) := by
  refine ⟨?_, ?_, ?_⟩
  · simp [createdRecord, storedPriority, truthyStr, hp, hpt]
  · rintro ⟨m, hm, hurg⟩
    have hm0 : ¬(m = "") := by
      intro h
      rw [h, messageIsUrgent_empty] at hurg
      exact Bool.false_ne_true hurg
    have hfire : classifierFires body = true := by
      simp [classifierFires, truthyStr, hm, hm0, hurg]
    simp [createdRecord, tagsAfterClassifier, hfire]
  · intro hnone
    have hfire : classifierFires body = false := by
      cases hmsg : body.message with
      | none => simp [classifierFires, truthyStr, hmsg]
      | some m =>
        simp [classifierFires, hmsg]
        intro _
        simpa using hnone m hmsg
    simp [createdRecord, tagsAfterClassifier, hfire]

/-- Witness for C6 (amended): supplied priority kept at a concrete input. -/
theorem supplied_priority_amended_witness :
    (createdRecord { name := some "Ann", email := some "a@b.c", message := some "hello", priority := some "high" } 5).priority = "high" :=
  (supplied_priority_amended { name := some "Ann", email := some "a@b.c", message := some "hello", priority := some "high" } 5 "high" rfl (by decide)).1

/-- C7: a valid create (name and email non-empty after trimming, priority
passing the schema enum) persists one record whose `email` is the input email
trimmed of surrounding whitespace and lowercased. -/
theorem email_normalization_on_create (body : CreateBody) (now : Nat)
    (st : List Submission) (e : String)
    (hn : validStr body.name = true) (he : body.email = some e)
    (he2 : validStr body.email = true)
    (henum : priorityEnum.contains (storedPriority body) = true) :
    postHandler body now true st = (201, st ++ [createdRecord body now]) ∧
    (createdRecord body now).email = strLower (strTrim e) := by
  constructor
  · have h3 : storedPriority body ∈ priorityEnum := by simpa using henum
    simp [postHandler, hn, he2, h3]
  · simp [createdRecord, he]

/-- Witness for C7 at the scenario input of the specification. -/
theorem email_normalization_on_create_witness :
    postHandler { name := some "Jane Doe", email := some " JANE@X.COM " } 5 true [] =
      (201, [createdRecord { name := some "Jane Doe", email := some " JANE@X.COM " } 5]) ∧
    (createdRecord { name := some "Jane Doe", email := some " JANE@X.COM " } 5).email =
      strLower (strTrim " JANE@X.COM ") :=
  email_normalization_on_create { name := some "Jane Doe", email := some " JANE@X.COM " } 5 []
    " JANE@X.COM " (by decide) rfl (by decide) (by decide)

/-- C9 counterexample: a list request whose page parameter parses to 0 with
limit 10 produces a skip of -10 sent to the storage collaborator — not the
skip 0 that treating the page as 1 would give. -/
theorem pagination_clamping_cex :
    queryDescriptor 0 10 = (-10, 10) ∧ ((-10 : Int) ≠ (0 : Int)) := by
  exact ⟨by decide, by decide⟩

/-- C9 amended: the query builder performs no clamping of page or limit — it
always hands the storage collaborator skip = (page-1)*limit and the raw limit,
so a page below 1 with a positive limit yields a negative skip, and a limit
below 1 is passed through as a non-positive per-page limit. -/
theorem pagination_clamping_amended (p L : Int) :
    queryDescriptor p L = ((p - 1) * L, L) ∧
    (p ≤ 0 → 0 < L → (queryDescriptor p L).1 < 0) ∧
    (L ≤ 0 → (queryDescriptor p L).2 ≤ 0) := by
  refine ⟨rfl, ?_, ?_⟩
  · intro hp hL
    have h1 : p - 1 < 0 := by linarith
    simpa [queryDescriptor, computeSkip] using mul_neg_of_neg_of_pos h1 hL
  · intro h
    simpa [queryDescriptor] using h

/-- Witness for C9 (amended) at page 0, limit 10. -/
theorem pagination_clamping_amended_witness :
    (queryDescriptor 0 10).1 < 0 :=
  (pagination_clamping_amended 0 10).2.1 (by decide) (by decide)

/-- C10: a partial status update whose body carries none of stage, status,
priority, assignedTo (or carries them only with falsy values such as the
empty string) is not rejected: when the id exists the handler answers 200 and
rewrites the record changing only `updatedAt`; and since a falsy `assignedTo`
is skipped, this operation can never clear `assignedTo` to the empty
string. -/
theorem status_patch_empty_body (id : Nat) (b : StatusBody) (now : Nat)
    (st : List (Nat × Submission)) (old : Submission)
    (hfind : (st.find? fun p => p.1 == id).isSome = true)
    (h1 : truthyStr b.stage = false) (h2 : truthyStr b.status = false)
    (h3 : truthyStr b.priority = false) (h4 : truthyStr b.assignedTo = false) :
    patchStatusHandler id b now st =
      (200, st.map fun p => if p.1 == id then (p.1, { p.2 with updatedAt := now }) else p) ∧
    statusApplied old b now = { old with updatedAt := now } ∧
    (∀ b' : StatusBody, ¬(old.assignedTo = some "") →
      ¬((statusApplied old b' now).assignedTo = some "")) := by
  refine ⟨?_, statusApplied_falsy b h1 h2 h3 h4 old now, ?_⟩
  · rw [patchStatusHandler, if_pos hfind]
    have key : ∀ x : Submission, statusApplied x b now = { x with updatedAt := now } :=
      fun x => statusApplied_falsy b h1 h2 h3 h4 x now
    simp only [key]
  · intro b' hne
    cases hb : b'.assignedTo with
    | none => simpa [statusApplied, truthyStr, hb] using hne
    | some s =>
      by_cases hs : s = ""
      · subst hs
        simpa [statusApplied, truthyStr, hb] using hne
      · simp [statusApplied, truthyStr, hb, hs]

/-- Witness for C10: the empty body on a one-record store at id 1. -/
theorem status_patch_empty_body_witness :
    patchStatusHandler 1 {} 7 [(1, { name := "n", email := "e" })] =
      (200, [(1, { name := "n", email := "e", updatedAt := 7 })]) :=
  ((status_patch_empty_body 1 {} 7 [(1, { name := "n", email := "e" })]
      { name := "n", email := "e" } (by decide) rfl rfl rfl rfl).1).trans (by decide)

/-- C5: the dashboard error rate is `round2 (errorCount / total * 100)` when
the total is positive — `errorCount` being exactly the number of submissions
whose `metadata.processingErrors` list is non-empty — and 0 when the store is
empty, with no division performed. -/
theorem dashboard_error_rate_law (subs : List Submission) :
    (0 < subs.length →
      errorRate subs =
        round2 ((((subs.filter fun s => decide (¬(s.metadata.processingErrors = []))).length : ℚ) /
          (subs.length : ℚ)) * 100)) ∧
    (subs.length = 0 → errorRate subs = 0) := by
  constructor
  · intro h
    have hfil : (subs.filter fun s => decide (¬(s.metadata.processingErrors = []))) =
        subs.filter fun s => !s.metadata.processingErrors.isEmpty := by
      apply List.filter_congr
      intro s _
      cases hl : s.metadata.processingErrors <;> simp
    rw [errorRate, if_pos h, hfil, errorCount]
  · intro h
    rw [errorRate, h]
    simp

/-- Witness for C5 on a two-record store with one erroring record. -/
theorem dashboard_error_rate_law_witness :
    errorRate
        [{ name := "a", email := "a@x.c", metadata := { processingErrors := ["bad phone"] } },
         { name := "b", email := "b@x.c" }] =
      round2 (((([{ name := "a", email := "a@x.c", metadata := { processingErrors := ["bad phone"] } },
         { name := "b", email := "b@x.c" }].filter
           fun s : Submission => decide (¬(s.metadata.processingErrors = []))).length : ℚ) / 2) * 100) :=
  (dashboard_error_rate_law _).1 (by decide)

/-- For a positive divisor, `Math.ceil` of the exact quotient agrees with the
rounding-up integer division `(t + L - 1) / L`. -/
theorem jsCeilDiv_eq_ediv (t L : Int) (hL : 0 < L) :
    jsCeilDiv t L = (t + L - 1) / L := by
  have hLQ : (0 : ℚ) < (L : ℚ) := by exact_mod_cast hL
  have hdm := Int.ediv_add_emod (t + L - 1) L
  have hr0 : 0 ≤ (t + L - 1) % L := Int.emod_nonneg _ (ne_of_gt hL)
  have hrL : (t + L - 1) % L < L := Int.emod_lt_of_pos _ hL
  rw [jsCeilDiv, Int.ceil_eq_iff]
  constructor
  · rw [lt_div_iff₀ hLQ]
    have h : ((t + L - 1) / L - 1) * L < t := by nlinarith [hdm, hr0]
    exact_mod_cast h
  · rw [div_le_iff₀ hLQ]
    have h : t ≤ ((t + L - 1) / L) * L := by nlinarith [hdm, hrL]
    exact_mod_cast h

/-- C4: for any requested page at least 1, limit at least 1 and non-negative
total, the pagination block reports totalPages = ceil(total/limit) (equal to
the rounding-up integer division), hasNextPage exactly when the page is below
totalPages, hasPrevPage exactly when the page exceeds 1, a skip of
(page-1)*limit, and the current page, total item count and items-per-page as
resolved. -/
theorem pagination_law (p L t : Int) (hp : 1 ≤ p) (hL : 1 ≤ L) (ht : 0 ≤ t) :
    (buildPagination p L t).totalPages = (t + L - 1) / L ∧
    (buildPagination p L t).totalPages = jsCeilDiv t L ∧
    (buildPagination p L t).hasNextPage = decide (p < (buildPagination p L t).totalPages) ∧
    (buildPagination p L t).hasPrevPage = decide (1 < p) ∧
    computeSkip p L = (p - 1) * L ∧
    (buildPagination p L t).currentPage = p ∧
    (buildPagination p L t).totalItems = t ∧
    (buildPagination p L t).itemsPerPage = L :=
  ⟨jsCeilDiv_eq_ediv t L (by linarith), rfl, rfl, rfl, rfl, rfl, rfl, rfl⟩

/-- Witness for C4 at page 2, limit 5, total 7. -/
theorem pagination_law_witness :
    (buildPagination 2 5 7).totalPages = (7 + 5 - 1) / 5 ∧
    (buildPagination 2 5 7).totalPages = jsCeilDiv 7 5 ∧
    (buildPagination 2 5 7).hasNextPage = decide ((2 : Int) < (buildPagination 2 5 7).totalPages) ∧
    (buildPagination 2 5 7).hasPrevPage = decide ((1 : Int) < 2) ∧
    computeSkip 2 5 = (2 - 1) * 5 ∧
    (buildPagination 2 5 7).currentPage = 2 ∧
    (buildPagination 2 5 7).totalItems = 7 ∧
    (buildPagination 2 5 7).itemsPerPage = 5 :=
  pagination_law 2 5 7 (by decide) (by decide) (by decide)

/-- A pattern of literal tokens matches a prefix exactly when the literal
characters are a case-insensitive prefix. -/
theorem matchesAt_map_lit (n : List Char) :
    ∀ s, matchesAt (n.map RTok.lit) s = isPrefixCI n s := by
  induction n with
  | nil => intro s; rfl
  | cons c cs ih =>
    intro s
    cases s with
    | nil => rfl
    | cons d ds => simp [matchesAt, isPrefixCI, tokMatchCI, ih]

/-- A pattern string without the wildcard character tokenizes to literal
tokens only. -/
theorem toksOf_map_lit (n : List Char) (h : ∀ c ∈ n, ¬(c = '.')) :
    toksOf n = n.map RTok.lit := by
  induction n with
  | nil => rfl
  | cons c cs ih =>
    have hc : (c == '.') = false := by simpa using h c (by simp)
    simp only [toksOf, List.map_cons, hc, Bool.false_eq_true, if_false]
    exact congrArg _ (ih fun x hx => h x (by simp [hx]))

/-- Unanchored search with a literal-token pattern is exactly case-insensitive
substring containment. -/
theorem regexSearch_map_lit (n : List Char) :
    ∀ s, regexSearch (n.map RTok.lit) s = containsCI n s := by
  intro s
  induction s with
  | nil => simp [regexSearch, containsCI, matchesAt_map_lit]
  | cons c cs ih => simp [regexSearch, containsCI, matchesAt_map_lit, ih]

/-- C8 counterexample: with search string ".", a record containing no literal
"." anywhere is nevertheless returned by the list filter, because the search
string is interpreted as a regex (the wildcard matches any character) rather
than as a literal substring as the claim states. -/
theorem search_filter_cex :
    findFiltered { search := "." } [{ name := "x", email := "y" }] =
      [{ name := "x", email := "y" }] ∧
    containsCI ".".data "x".data = false ∧
    containsCI ".".data "y".data = false := by
  exact ⟨by decide, by decide, by decide⟩

/-- C8 amended: the search term is handed to the storage collaborator as a
regular expression; only when it contains no regex metacharacter does the
search OR-group coincide with case-insensitive literal substring containment
over name, email and message, AND-combined with the equality filters. -/
theorem search_filter_amended (p : ListParams) (st : List Submission)
    (hs : ¬(p.search = "")) (hmeta : ∀ c ∈ p.search.data, isMetaChar c = false) :
    findFiltered p st = st.filter fun s =>
      eqFiltersOk p s &&
      (containsCI p.search.data s.name.data ||
       containsCI p.search.data s.email.data ||
       (match s.message with
        | some m => containsCI p.search.data m.data
        | none => false)) := by
  apply List.filter_congr
  intro s _
  have hb : (p.search == "") = false := by simpa using hs
  have hdot : ∀ c ∈ p.search.data, ¬(c = '.') := by
    intro c hc h
    have hm := hmeta c hc
    rw [h] at hm
    simp [isMetaChar, regexMetaChars] at hm
  have ht : toksOf p.search.data = p.search.data.map RTok.lit := toksOf_map_lit _ hdot
  simp only [matchesFilter, hb, Bool.false_or, matchesSearch, ht, regexSearch_map_lit]

/-- Witness for C8 (amended): a metacharacter-free search resolves to literal
case-insensitive substring filtering on a concrete store. -/
theorem search_filter_amended_witness :
    findFiltered { status := "new", search := "JAn" }
        [{ name := "Jane Doe", email := "j@x.c" }, { name := "Bob", email := "b@x.c" }] =
      [{ name := "Jane Doe", email := "j@x.c" }] :=
  (search_filter_amended { status := "new", search := "JAn" }
      [{ name := "Jane Doe", email := "j@x.c" }, { name := "Bob", email := "b@x.c" }]
      (by decide) (by decide)).trans (by decide)
